import Mathlib

/-!
# TubeChat backend — shallow embedding and verification

A shallow embedding of the TubeChat backend (FastAPI + LangGraph RAG
pipeline over YouTube transcripts) and proofs about it.

Conventions of the embedding:
* Python dict-like optional fields become `Option`; Python truthiness of
  strings/lists is modelled explicitly (empty string / empty list are falsy).
* Every LLM call is abstracted as a function parameter `llm : String → String`
  applied to the exact prompt the code builds; similarly the vector index,
  the JSON decoder and the external search are parameters.  All control flow
  around those calls is translated from the source.
* Machine floats (similarity scores) are modelled as rationals; the literal
  threshold `0.65` becomes `(65 : ℚ) / 100`.
* SQLAlchemy rows become structures; a database session becomes a value of
  a `DB` structure threaded explicitly.  Autoincremented row ids and
  timestamps not observed by the verified claims are abstracted away.
-/

namespace TubeChat

/-! ## backend/agents.py — per-turn agent state

`AgentState` is a `TypedDict`; fields read with `.get` may be absent, which
we model with `Option`.  `chat_history` entries are `{role, content}` dicts. -/

structure ChatMsg where
  role : String
  content : String
  deriving Repr, DecidableEq

structure AgentState where
  messages : List String
  question : String
  reformulated_query : Option String
  documents : List String
  feedback : String
  is_good : Option Bool
  chat_history : List ChatMsg
  summary : String
  deriving Repr, DecidableEq

/-- Python truthiness fallback `a or b` for an optional string `a`:
`None` and `""` are falsy. -/
def orFalsy (a : Option String) (b : String) : String :=
  match a with
  | none => b
  | some s => if s = "" then b else s

/-! ## backend/agents.py — retrieval node (`create_retriever_tool`)

The Chroma vector store is abstracted as a function from a query and a
result count `k` to the list of `(page_content, score)` pairs that
`similarity_search_with_score` returns, in nearest-first order. -/

abbrev VectorIndex := String → Nat → List (String × ℚ)

/-- The score threshold `0.65` from the retriever node. -/
def threshold : ℚ := 65 / 100

/-- Output state of the retriever node: it returns a partial state update
carrying only `question` and `documents`. -/
structure RetrieverOutput where
  question : String
  documents : List String
  deriving Repr, DecidableEq

/-- The retriever node produced by `create_retriever_tool(url)`, with the
vector store it closes over abstracted as `vector_store`.  Queries with the
reformulated query when present and non-empty (Python `or` fallback),
requests the top 10 chunks with scores, and keeps those scoring `≥ 0.65`. -/
def retriever_tool (vector_store : VectorIndex) (state : AgentState) : RetrieverOutput :=
  let query := orFalsy state.reformulated_query state.question
  let results := vector_store query 10
  let found_docs := (results.filter (fun r => threshold ≤ r.2)).map Prod.fst
  { question := state.question, documents := found_docs }

/-! ## backend/agents.py — history buffering and summarization -/

def BUFFER_SIZE : Nat := 10

/-- One line of the history block: `ROLE: first-300-chars`. -/
def history_line (m : ChatMsg) : String :=
  m.role.toUpper ++ ": " ++ m.content.take 300

/-- `summarize_history(chat_history, existing_summary)`: returns the
existing summary unchanged on empty input, otherwise asks the LLM to
condense the rendered history (with the previous summary as context). -/
def summarize_history (llm : String → String) (chat_history : List ChatMsg)
    (existing_summary : String) : String :=
  if chat_history = [] then existing_summary
  else
    let history_text := String.intercalate "\n" (chat_history.map history_line)
    let prev_summary :=
      if existing_summary = "" then ""
      else "Previous summary:\n" ++ existing_summary
    llm ("Condense the following conversation into a brief factual summary (3-5 sentences).\n" ++
      "Preserve key topics discussed, questions asked, and conclusions reached.\n\n" ++
      prev_summary ++ "\n\nConversation to summarize:\n" ++ history_text ++ "\n\nSummary:")

/-- `build_chat_context(chat_history, summary)`: at most `BUFFER_SIZE`
entries pass through unchanged; otherwise the oldest `len − BUFFER_SIZE`
entries are summarized and the newest `BUFFER_SIZE` are kept verbatim. -/
def build_chat_context (llm : String → String) (chat_history : List ChatMsg)
    (summary : String) : List ChatMsg × String :=
  if chat_history.length ≤ BUFFER_SIZE then (chat_history, summary)
  else
    let overflow := chat_history.take (chat_history.length - BUFFER_SIZE)
    let recent := chat_history.drop (chat_history.length - BUFFER_SIZE)
    (recent, summarize_history llm overflow summary)

/-! ## backend/agents.py — query reformulation -/

/-- Strip every leading and trailing character of `s` that appears in `cs`
(Python `str.strip(chars)` semantics). -/
def stripChars (cs : List Char) (s : String) : String :=
  String.mk (((s.data.dropWhile (fun c => cs.contains c)).reverse.dropWhile
    (fun c => cs.contains c)).reverse)

/-- `reformulate_query(state)`: with no chat history and no summary the
question is already standalone and is returned unchanged; otherwise the LLM
rewrites it against a context block (summary plus last 6 history entries,
each truncated to 200 characters) and surrounding quotes are stripped. -/
def reformulate_query (llm : String → String) (state : AgentState) : String :=
  let question := state.question
  let chat_history := state.chat_history
  let summary := state.summary
  if chat_history = [] ∧ summary = "" then question
  else
    let ctx_parts :=
      (if summary = "" then [] else ["Conversation summary: " ++ summary]) ++
      (if chat_history = [] then []
       else ["Recent messages:\n" ++ String.intercalate "\n"
          ((chat_history.drop (chat_history.length - 6)).map
            (fun m => m.role.toUpper ++ ": " ++ m.content.take 200))])
    let context := String.intercalate "\n\n" ctx_parts
    let raw := llm ("Given the conversation context below, rewrite the user's latest query into a\n" ++
      "standalone, specific question that would work well as a search query for a video transcript database.\n\n" ++
      context ++ "\n\nUser's latest query: " ++ question ++ "\n\nReformulated query:")
    stripChars ['\''] (stripChars ['\"'] raw.trim)

/-! ## backend/agents.py — router -/

/-- `router(state)`: `state.get("is_good", False)` selects the branch. -/
def router (state : AgentState) : String :=
  let is_good := state.is_good.getD false
  if is_good then "GENERATE_ANSWER" else "SEARCH_TAVILY"

/-! ## backend/graph.py — the pipeline state machine

Nodes of the LangGraph workflow, plus the implicit start and end markers. -/

inductive Node where
  | START
  | REFORMULATE
  | RETRIEVER
  | AGENT
  | JUDGE
  | SEARCH_TAVILY
  | FINAL_AGENT
  | GENERATE_ANSWER
  | END
  deriving Repr, DecidableEq

/-- The transition function of the compiled graph: the unconditional edges
of `get_chat_graph` plus, out of `JUDGE`, the conditional edge that looks
the router's returned label up in the branch mapping.  `none` means there
is no outgoing edge (only past `END`, or on an unmapped router label). -/
def next_node (state : AgentState) : Node → Option Node
  | .START => some .REFORMULATE
  | .REFORMULATE => some .RETRIEVER
  | .RETRIEVER => some .AGENT
  | .AGENT => some .JUDGE
  | .JUDGE =>
      let label := router state
      if label = "GENERATE_ANSWER" then some .GENERATE_ANSWER
      else if label = "SEARCH_TAVILY" then some .SEARCH_TAVILY
      else none
  | .SEARCH_TAVILY => some .FINAL_AGENT
  | .FINAL_AGENT => some .GENERATE_ANSWER
  | .GENERATE_ANSWER => some .END
  | .END => none

/-- The list of nodes visited starting from `n` (inclusive), following
`next_node` for at most `fuel` steps. -/
def trace_from (state : AgentState) : Node → Nat → List Node
  | n, 0 => [n]
  | n, fuel + 1 =>
      match next_node state n with
      | some m => n :: trace_from state m fuel
      | none => [n]

/-- The full run of the pipeline graph (10 steps of fuel suffice: the graph
has 9 nodes and no cycle). -/
def pipeline_trace (state : AgentState) : List Node :=
  trace_from state .START 10

/-! ## backend/agents.py — the vector-store cache

`_vector_store_cache` is a Python dict, so it preserves insertion order and
`next(iter(...))` yields the earliest-inserted surviving key.  We model it
as an insertion-ordered association list from URL to an abstract store
handle (a `Nat`), record released handles, and draw fresh handles from a
counter.  Building a store (transcript fetch, chunking, embedding) is
abstracted to allocating a fresh handle; a transcript-fetch failure raises
before any cache mutation and so never changes this state. -/

structure VectorCacheState where
  cache : List (String × Nat)
  released : List Nat
  next_handle : Nat
  deriving Repr, DecidableEq

def MAX_CACHED_VECTORS : Nat := 3

/-- `_evict_oldest_vector()`: when the cache already holds
`MAX_CACHED_VECTORS` entries, pop the earliest-inserted one and delete its
collection (modelled by recording its handle as released). -/
def evict_oldest_vector (s : VectorCacheState) : VectorCacheState :=
  if MAX_CACHED_VECTORS ≤ s.cache.length then
    match s.cache with
    | [] => s
    | (_, h) :: rest => { s with cache := rest, released := s.released ++ [h] }
  else s

/-- `release_vector_store(url)`: manually pop one URL, deleting its
collection. -/
def release_vector_store (s : VectorCacheState) (url : String) : VectorCacheState :=
  match s.cache.find? (fun p => p.1 = url) with
  | none => s
  | some p =>
      { s with cache := s.cache.filter (fun q => ¬ q.1 = url),
               released := s.released ++ [p.2] }

/-- `get_vector_store(url)` (cache discipline): on a hit return the cached
store and leave the cache untouched; on a miss, after the transcript is
fetched, evict the oldest entry if the cache is full, build the new store
and insert it last. -/
def get_vector_store (s : VectorCacheState) (url : String) : Nat × VectorCacheState :=
  match s.cache.find? (fun p => p.1 = url) with
  | some p => (p.2, s)
  | none =>
      let s1 := evict_oldest_vector s
      let h := s1.next_handle
      (h, { cache := s1.cache ++ [(url, h)],
            released := s1.released,
            next_handle := h + 1 })

/-! ## backend/schemas.py — persisted rows, and a database value

SQLAlchemy rows become structures.  Nullable columns become `Option`.
Autoincremented primary keys of messages and server-side timestamps are
not observed by the verified claims; message rows are kept in insertion
order, which coincides with `created_at` order since rows are only ever
appended with a fresh timestamp, so `order_by(created_at.asc())` is the
identity on this list. -/

structure ChatRow where
  id : Nat
  name : Option String
  user_id : Nat
  url : String
  title : Option String
  author : Option String
  thumbnail_url : Option String
  created_at : Nat
  last_session : Nat
  deriving Repr, DecidableEq

structure MessageRow where
  id : Nat
  chat_id : Nat
  role : String
  content : String
  follow_up : Option String
  created_at : Nat
  deriving Repr, DecidableEq

structure DB where
  chats : List ChatRow
  messages : List MessageRow
  deriving Repr, DecidableEq

/-! ## backend/models.py — response models -/

structure ReturnChat where
  id : Nat
  name : Option String
  url : String
  title : Option String
  thumbnail_url : Option String
  author : Option String
  created_at : Nat
  last_session : Nat
  deriving Repr, DecidableEq

structure ReturnMessage where
  id : Nat
  role : String
  content : String
  follow_up : List String
  created_at : Nat
  deriving Repr, DecidableEq

/-- HTTP error outcomes raised by the routers. -/
inductive ApiError where
  | NotFound (detail : String)
  | BadRequest (detail : String)
  deriving Repr, DecidableEq

/-! ## backend/routers/chat.py — video-id extraction

`get_video_id` searches the URL with the regular expression
`(?:v=|\/)([0-9A-Za-z_-]{11}).*` and returns group 1 of the leftmost
match.  The pattern matches at a position exactly when the text there
starts with `v=` or `/` followed by at least 11 characters of the id
class (the trailing `.*` always matches); the captured group is those 11
characters.  `scan_video_id` tries positions left to right, which is
precisely `re.search`'s leftmost-match rule. -/

def is_vid_char (c : Char) : Bool :=
  c.isAlpha || c.isDigit || c = '_' || c = '-'

/-- The 11 captured characters, if 11 id-class characters start here. -/
def take_id (cs : List Char) : Option (List Char) :=
  let cand := cs.take 11
  if cand.length = 11 ∧ cand.all is_vid_char then some cand else none

/-- The tail of the `v=` alternative: an `=` must follow the `v`. -/
def match_v_eq : List Char → Option (List Char)
  | [] => none
  | d :: rest2 => if d = '=' then take_id rest2 else none

/-- Whether the regex matches at this position, and the captured group:
the alternation `v=` | `/`, then the 11-character capture. -/
def match_at : List Char → Option (List Char)
  | [] => none
  | c :: rest =>
      if c = 'v' then match_v_eq rest
      else if c = '/' then take_id rest
      else none

/-- Leftmost-match search over all positions. -/
def scan_video_id : List Char → Option (List Char)
  | [] => none
  | c :: rest =>
      match match_at (c :: rest) with
      | some v => some v
      | none => scan_video_id rest

/-- `get_video_id(url)`: the leftmost match's captured 11-character id,
or `None`. -/
def get_video_id (url : String) : Option String :=
  (scan_video_id url.data).map String.mk

/-! ## backend/routers/chat.py — URL validation and chat creation

Video metadata resolution is a waterfall: process-wide cache, then yt-dlp,
then the Piped API, then a synthetic placeholder.  The two external
fetchers are abstracted as function parameters; the cache is an
insertion-ordered association list threaded explicitly. -/

structure VideoMeta where
  title : String
  author : String
  thumbnail_url : String
  deriving Repr, DecidableEq

/-- `is_valid_youtube_url(url)`: true iff the URL is cached or yields a
video id; on a cache miss with a valid id, resolves metadata through the
waterfall (metadata failures never cause rejection) and caches it. -/
def is_valid_youtube_url (ytdlp piped : String → Option VideoMeta)
    (cache : List (String × VideoMeta)) (url : String) :
    Bool × List (String × VideoMeta) :=
  if (cache.find? (fun p => p.1 == url)).isSome then (true, cache)
  else
    match get_video_id url with
    | none => (false, cache)
    | some vid =>
        let metadata :=
          match ytdlp url with
          | some m => m
          | none =>
              match piped vid with
              | some m => m
              | none =>
                  { title := "YouTube Video (Metadata Hidden)"
                    author := "Unknown"
                    thumbnail_url := "https://img.youtube.com/vi/" ++ vid ++ "/mqdefault.jpg" }
        (true, cache ++ [(url, metadata)])

/-- `_chat_to_return(chat)`: response built from stored fields only; the
display name falls back to the stored title, then to "Untitled". -/
def chat_to_return (chat : ChatRow) : ReturnChat :=
  { id := chat.id
    name := some (orFalsy chat.name (orFalsy chat.title "Untitled"))
    url := chat.url
    title := chat.title
    author := chat.author
    thumbnail_url := chat.thumbnail_url
    created_at := chat.created_at
    last_session := chat.last_session }

/-- `create_chat`: reject with 400 when the URL is invalid; otherwise
persist a chat built from the cached metadata (name defaulting to the
resolved title).  `new_id` and `now` stand for the autoincremented key and
the server clock. -/
def create_chat (ytdlp piped : String → Option VideoMeta)
    (cache : List (String × VideoMeta)) (db : DB) (uid : Nat)
    (url : String) (name : Option String) (new_id now : Nat) :
    Except ApiError (List (String × VideoMeta) × DB × ReturnChat) :=
  let v := is_valid_youtube_url ytdlp piped cache url
  if ¬ v.1 then Except.error (ApiError.BadRequest "Invalid YouTube URL")
  else
    match v.2.find? (fun p => p.1 == url) with
    | none => Except.error (ApiError.BadRequest "Invalid YouTube URL")
    | some p =>
        let yt_info := p.2
        let chat_name := orFalsy name yt_info.title
        let new_chat : ChatRow :=
          { id := new_id, name := some chat_name, user_id := uid, url := url
            title := some yt_info.title, author := some yt_info.author
            thumbnail_url := some yt_info.thumbnail_url
            created_at := now, last_session := now }
        Except.ok (v.2, { db with chats := db.chats ++ [new_chat] }, chat_to_return new_chat)

/-! ## backend/routers/chat.py — chat-scoped operations

Every chat-scoped endpoint performs the same lookup, filtering on
`Chat.id == chat_id` **and** `Chat.user_id == user.id`, and raises
404 "Chat not found" when nothing matches. -/

def find_owned_chat (db : DB) (chat_id user_id : Nat) : Option ChatRow :=
  db.chats.find? (fun c => c.id == chat_id && c.user_id == user_id)

/-- `GET /chat/get/{chat_id}`. -/
def get_chat (db : DB) (user_id chat_id : Nat) : Except ApiError ReturnChat :=
  match find_owned_chat db chat_id user_id with
  | none => Except.error (ApiError.NotFound "Chat not found")
  | some chat => Except.ok (chat_to_return chat)

/-- `DELETE /chat/delete/{chat_id}`: deletes the chat; the relationship's
`cascade="all, delete-orphan"` removes its messages with it. -/
def delete_chat (db : DB) (user_id chat_id : Nat) : Except ApiError (DB × String) :=
  match find_owned_chat db chat_id user_id with
  | none => Except.error (ApiError.NotFound "Chat not found")
  | some _ =>
      Except.ok
        ({ chats := db.chats.filter (fun c => ¬ c.id = chat_id)
           messages := db.messages.filter (fun m => ¬ m.chat_id = chat_id) },
         "Chat deleted successfully")

/-- `PUT /chat/update_name/{chat_id}`. -/
def update_chat_name (db : DB) (user_id chat_id : Nat) (new_name : String) :
    Except ApiError (DB × ReturnChat) :=
  match find_owned_chat db chat_id user_id with
  | none => Except.error (ApiError.NotFound "Chat not found")
  | some chat =>
      let chat' := { chat with name := some new_name }
      Except.ok
        ({ db with chats := db.chats.map (fun c => if c.id = chat_id then chat' else c) },
         chat_to_return chat')

/-- Parse one stored `follow_up` column: `if m.follow_up:` skips `NULL`
and the empty string; `json.loads` failure is swallowed, leaving `[]`.
The JSON decoder is abstracted as `loads`, `none` meaning a parse error. -/
def parse_follow_up (loads : String → Option (List String)) :
    Option String → List String
  | none => []
  | some s => if s = "" then [] else (loads s).getD []

/-- `GET /chat/{chat_id}/messages`: ownership check, then every stored
message of the chat in creation order, its `follow_up` parsed leniently. -/
def get_messages (loads : String → Option (List String)) (db : DB)
    (user_id chat_id : Nat) : Except ApiError (List ReturnMessage) :=
  match find_owned_chat db chat_id user_id with
  | none => Except.error (ApiError.NotFound "Chat not found")
  | some _ =>
      Except.ok ((db.messages.filter (fun m => m.chat_id == chat_id)).map
        (fun m =>
          { id := m.id, role := m.role, content := m.content
            follow_up := parse_follow_up loads m.follow_up
            created_at := m.created_at }))

/-! ## backend/graph.py — the per-chat compiled-pipeline cache

`active_graphs` maps `chat_id ↦ (compiled app, url)`.  A compiled app is
abstracted to the one datum that distinguishes two compilations: the URL
its retriever node was bound to at build time (`create_retriever_tool(url)`
closes over that URL's vector store). -/

structure CompiledGraph where
  bound_url : String
  deriving Repr, DecidableEq

/-- `get_chat_graph(chat_id, url)`: return the cached app for this chat if
one exists (the `url` argument is not consulted); otherwise build an app
bound to `url`, cache it under `chat_id`, and return it. -/
def get_chat_graph (cache : List (Nat × CompiledGraph × String))
    (chat_id : Nat) (url : String) :
    CompiledGraph × List (Nat × CompiledGraph × String) :=
  match cache.find? (fun e => e.1 == chat_id) with
  | some e => (e.2.1, cache)
  | none =>
      let app : CompiledGraph := { bound_url := url }
      (app, cache ++ [(chat_id, app, url)])

/-! ## backend/routers/stream.py — the streaming event generator

The pipeline run is abstracted as the pair of (a) the node events the
`for event in app.stream(...)` loop fully processed, in order, and (b)
`some msg` when an exception with description `msg` interrupted the run
(anywhere inside the `try`, after those events), `none` when the stream
ran to completion.  Each processed node event yields at most one
server-sent event; the `GENERATE_ANSWER` update, when it carries
messages, is parsed into the structured result payload. -/

structure Payload where
  title : String
  question : String
  answer : String
  follow_up : List String
  deriving Repr, DecidableEq

inductive NodeEvent where
  | REFORMULATE
  | RETRIEVER
  | AGENT
  | JUDGE (is_good : Option Bool)
  | SEARCH_TAVILY
  | FINAL_AGENT
  | GENERATE_ANSWER (payload : Option Payload)
  deriving Repr, DecidableEq

/-- One server-sent event, discriminated by its `type` field. -/
inductive SSE where
  | status (msg : String)
  | result (payload : Payload)
  | error (msg : String)
  deriving Repr, DecidableEq

/-- The event, if any, yielded for one processed node update. -/
def sse_of_node : NodeEvent → Option SSE
  | .REFORMULATE => some (SSE.status "Understanding query...")
  | .RETRIEVER => some (SSE.status "Searching video...")
  | .AGENT => some (SSE.status "Analyzing...")
  | .JUDGE g =>
      some (SSE.status (if g.getD false then "Verified ✓" else "Refining answer..."))
  | .SEARCH_TAVILY => some (SSE.status "Searching the web...")
  | .FINAL_AGENT => some (SSE.status "Finalizing...")
  | .GENERATE_ANSWER (some p) => some (SSE.result p)
  | .GENERATE_ANSWER none => none

/-- The value of `result_payload` after the loop: the payload of the last
`GENERATE_ANSWER` update that carried messages, if any. -/
def final_payload (evs : List NodeEvent) : Option Payload :=
  evs.foldl
    (fun acc e =>
      match e with
      | NodeEvent.GENERATE_ANSWER (some p) => some p
      | _ => acc)
    none

/-- `event_generator` for one `POST /stream/{chat_id}` call, after the
ownership check: persist the user message, stream the run's events, and —
only when the run completed with a result payload — persist the AI message
and bump the chat's `last_session`.  Any exception inside the `try` yields
a single error event instead.  `dumps` abstracts `json.dumps`; `now` and
the two row ids abstract the server clock and autoincremented keys. -/
def event_generator (dumps : List String → String) (db : DB) (chat_id : Nat)
    (query : String) (run : List NodeEvent × Option String)
    (user_msg_id ai_msg_id now : Nat) : DB × List SSE :=
  let user_msg : MessageRow :=
    { id := user_msg_id, chat_id := chat_id, role := "user", content := query
      follow_up := none, created_at := now }
  let db1 : DB := { db with messages := db.messages ++ [user_msg] }
  let sse := run.1.filterMap sse_of_node
  match run.2 with
  | some e => (db1, sse ++ [SSE.error e])
  | none =>
      match final_payload run.1 with
      | none => (db1, sse)
      | some p =>
          let ai_msg : MessageRow :=
            { id := ai_msg_id, chat_id := chat_id, role := "ai"
              content := p.answer, follow_up := some (dumps p.follow_up)
              created_at := now }
          ({ chats := db1.chats.map
               (fun c => if c.id = chat_id then { c with last_session := now } else c)
             messages := db1.messages ++ [ai_msg] },
           sse)

/-! ## Theorems -/

/-- C1: for every query, the retriever node requests the top 10 nearest
chunks with scores from the chat's vector index and keeps exactly those
chunks whose score is ≥ 0.65, in their original relative order, as the
turn's document list; for candidate scores [0.90, 0.70, 0.50, 0.20]
exactly the 0.90 and 0.70 chunks are retained; and the original
(non-reformulated) question is preserved unchanged in the node's output
state. -/
theorem retriever_threshold_spec (vs : VectorIndex) (st : AgentState) :
    (retriever_tool vs st).question = st.question ∧
    (retriever_tool vs st).documents =
      ((vs (orFalsy st.reformulated_query st.question) 10).filter
        (fun r => (65 : ℚ) / 100 ≤ r.2)).map Prod.fst ∧
    List.Sublist (retriever_tool vs st).documents
      ((vs (orFalsy st.reformulated_query st.question) 10).map Prod.fst) ∧
    (retriever_tool
        (fun _ _ => [("c90", (90 : ℚ) / 100), ("c70", (70 : ℚ) / 100),
                     ("c50", (50 : ℚ) / 100), ("c20", (20 : ℚ) / 100)])
        { messages := [], question := "q", reformulated_query := none
          documents := [], feedback := "", is_good := none
          chat_history := [], summary := "" }).documents = ["c90", "c70"] := by
  refine ⟨rfl, rfl, ?_, by norm_num [retriever_tool, orFalsy, threshold]⟩
  exact (List.filter_sublist _).map Prod.fst

/-- The 13-entry chat history used to witness the buffering policy. -/
def h13 : List ChatMsg :=
  (List.range 13).map (fun i => { role := "user", content := toString i })

/-- C3: with at most `BUFFER_SIZE = 10` stored entries, `build_chat_context`
returns history and summary unchanged; with more, it returns the last 10
entries verbatim paired with a summary produced from exactly the oldest
`len − 10` entries, the previous summary supplied as context. -/
theorem build_chat_context_spec (llm : String → String) (h : List ChatMsg)
    (s : String) :
    (h.length ≤ BUFFER_SIZE → build_chat_context llm h s = (h, s)) ∧
    (BUFFER_SIZE < h.length →
      build_chat_context llm h s =
        (h.drop (h.length - BUFFER_SIZE),
         summarize_history llm (h.take (h.length - BUFFER_SIZE)) s) ∧
      (build_chat_context llm h s).1.length = BUFFER_SIZE) := by
  constructor
  · intro hle
    simp [build_chat_context, hle]
  · intro hgt
    have hnle : ¬ h.length ≤ BUFFER_SIZE := Nat.not_le.mpr hgt
    constructor
    · simp [build_chat_context, hnle]
    · simp only [build_chat_context, if_neg hnle, List.length_drop]
      omega

/-- Witness for C3 at the spec's example: 13 stored messages give back the
last 10 verbatim and a summary built from the first 3. -/
theorem build_chat_context_spec_witness :
    BUFFER_SIZE < h13.length ∧
    build_chat_context (fun _ => "S") h13 "" =
      (h13.drop 3, summarize_history (fun _ => "S") (h13.take 3) "") ∧
    (build_chat_context (fun _ => "S") h13 "").1.length = 10 := by
  have h := (build_chat_context_spec (fun _ => "S") h13 "").2 (by decide)
  exact ⟨by decide, h.1, h.2⟩

/-- C8: with an empty chat history and an empty summary in the turn state,
the reformulation step returns the question itself unchanged, and its
result does not depend on the LLM at all. -/
theorem reformulate_query_identity (llm : String → String) (st : AgentState)
    (h1 : st.chat_history = []) (h2 : st.summary = "") :
    reformulate_query llm st = st.question ∧
    (∀ llm2 : String → String, reformulate_query llm st = reformulate_query llm2 st) := by
  constructor
  · simp [reformulate_query, h1, h2]
  · intro llm2
    simp [reformulate_query, h1, h2]

/-- Witness for C8 at a concrete state with no history and no summary. -/
theorem reformulate_query_identity_witness :
    reformulate_query (fun _ => "LLM OUTPUT")
      { messages := [], question := "what is this video about?"
        reformulated_query := none, documents := [], feedback := ""
        is_good := none, chat_history := [], summary := "" } =
      "what is this video about?" :=
  (reformulate_query_identity (fun _ => "LLM OUTPUT") _ rfl rfl).1

/-- Evicting from a cache within capacity leaves at most capacity − 1
entries. -/
theorem evict_oldest_vector_length (s : VectorCacheState)
    (h : s.cache.length ≤ MAX_CACHED_VECTORS) :
    (evict_oldest_vector s).cache.length ≤ MAX_CACHED_VECTORS - 1 := by
  unfold evict_oldest_vector
  by_cases hfull : MAX_CACHED_VECTORS ≤ s.cache.length
  · rw [if_pos hfull]
    cases hc : s.cache with
    | nil => rw [hc] at hfull; simp [MAX_CACHED_VECTORS] at hfull
    | cons hd tl =>
        rw [hc] at h
        simp only [List.length_cons] at h
        simp only [List.length]
        omega
  · rw [if_neg hfull]
    omega

/-- Eviction never touches the handle counter. -/
theorem evict_oldest_vector_next_handle (s : VectorCacheState) :
    (evict_oldest_vector s).next_handle = s.next_handle := by
  unfold evict_oldest_vector
  by_cases hfull : MAX_CACHED_VECTORS ≤ s.cache.length
  · rw [if_pos hfull]
    cases s.cache with
    | nil => rfl
    | cons hd tl => rfl
  · rw [if_neg hfull]

/-- C2: the vector-index cache never exceeds its capacity of 3 — every
inserting call to `get_vector_store` on a full cache first evicts the
earliest-inserted entry, releasing its index — and after building indices
for distinct URLs A, B, C, D in order, exactly B, C, D remain cached with
A's index released. -/
theorem vector_cache_bound_and_fifo :
    (∀ (s : VectorCacheState) (url : String),
        s.cache.length ≤ MAX_CACHED_VECTORS →
        ((get_vector_store s url).2).cache.length ≤ MAX_CACHED_VECTORS) ∧
    (∀ (s : VectorCacheState) (url : String) (hd : String × Nat)
        (rest : List (String × Nat)),
        s.cache = hd :: rest →
        s.cache.length = MAX_CACHED_VECTORS →
        s.cache.find? (fun p => p.1 = url) = none →
        ((get_vector_store s url).2).cache = rest ++ [(url, s.next_handle)] ∧
        ((get_vector_store s url).2).released = s.released ++ [hd.2]) ∧
    (let s0 : VectorCacheState := { cache := [], released := [], next_handle := 0 }
     let s1 := (get_vector_store s0 "A").2
     let s2 := (get_vector_store s1 "B").2
     let s3 := (get_vector_store s2 "C").2
     let s4 := (get_vector_store s3 "D").2
     s4.cache.map Prod.fst = ["B", "C", "D"] ∧
     s4.released = [(get_vector_store s0 "A").1]) := by
  refine ⟨?_, ?_, by decide⟩
  · intro s url hle
    unfold get_vector_store
    cases hfind : s.cache.find? (fun p => decide (p.1 = url)) with
    | some p => simpa using hle
    | none =>
        simp only [List.length_append, List.length_cons, List.length_nil]
        have := evict_oldest_vector_length s hle
        simp only [MAX_CACHED_VECTORS] at this ⊢
        omega
  · intro s url hd rest hc hlen hfind
    have hfull : MAX_CACHED_VECTORS ≤ s.cache.length := le_of_eq hlen.symm
    have hev : evict_oldest_vector s =
        { s with cache := rest, released := s.released ++ [hd.2] } := by
      unfold evict_oldest_vector
      rw [if_pos hfull, hc]
    unfold get_vector_store
    rw [show s.cache.find? (fun p => decide (p.1 = url)) = none from hfind, hev]
    exact ⟨rfl, rfl⟩

/-- Witness for C2 at a concrete full cache: inserting a fourth distinct
URL keeps the bound, evicts the earliest entry and releases its index. -/
theorem vector_cache_bound_and_fifo_witness :
    (VectorCacheState.mk [("u1", 0), ("u2", 1), ("u3", 2)] [] 3).cache.length ≤
      MAX_CACHED_VECTORS ∧
    ((get_vector_store (VectorCacheState.mk [("u1", 0), ("u2", 1), ("u3", 2)] [] 3)
        "u4").2).cache.length ≤ MAX_CACHED_VECTORS ∧
    ((get_vector_store (VectorCacheState.mk [("u1", 0), ("u2", 1), ("u3", 2)] [] 3)
        "u4").2).cache = [("u2", 1), ("u3", 2)] ++ [("u4", 3)] ∧
    ((get_vector_store (VectorCacheState.mk [("u1", 0), ("u2", 1), ("u3", 2)] [] 3)
        "u4").2).released = [] ++ [0] := by
  refine ⟨by decide,
    vector_cache_bound_and_fifo.1 _ "u4" (by decide),
    (vector_cache_bound_and_fifo.2.1 _ "u4" ("u1", 0) [("u2", 1), ("u3", 2)]
      rfl (by decide) (by decide)).1,
    (vector_cache_bound_and_fifo.2.1 _ "u4" ("u1", 0) [("u2", 1), ("u3", 2)]
      rfl (by decide) (by decide)).2⟩

/-- C4: the router is a pure function of the turn state — the
generate-final-answer branch exactly when `is_good` is `true`, the
web-search branch when it is `false` or absent — and accordingly a run
with `is_good = true` goes JUDGE → GENERATE_ANSWER → end without visiting
SEARCH_TAVILY or FINAL_AGENT, while a run with `is_good` false or absent
goes JUDGE → SEARCH_TAVILY → FINAL_AGENT → GENERATE_ANSWER → end. -/
theorem router_pure_branching (st : AgentState) :
    (router st = "GENERATE_ANSWER" ↔ st.is_good = some true) ∧
    (router st = "SEARCH_TAVILY" ↔ (st.is_good = none ∨ st.is_good = some false)) ∧
    (st.is_good = some true →
      pipeline_trace st = [Node.START, Node.REFORMULATE, Node.RETRIEVER, Node.AGENT,
        Node.JUDGE, Node.GENERATE_ANSWER, Node.END] ∧
      Node.SEARCH_TAVILY ∉ pipeline_trace st ∧
      Node.FINAL_AGENT ∉ pipeline_trace st) ∧
    (st.is_good.getD false = false →
      pipeline_trace st = [Node.START, Node.REFORMULATE, Node.RETRIEVER, Node.AGENT,
        Node.JUDGE, Node.SEARCH_TAVILY, Node.FINAL_AGENT, Node.GENERATE_ANSWER,
        Node.END]) := by
  cases hg : st.is_good with
  | none =>
      refine ⟨by simp [router, hg], by simp [router, hg], by simp [hg], ?_⟩
      intro _
      simp [pipeline_trace, trace_from, next_node, router, hg]
  | some b =>
      cases b with
      | false =>
          refine ⟨by simp [router, hg], by simp [router, hg], by simp [hg], ?_⟩
          intro _
          simp [pipeline_trace, trace_from, next_node, router, hg]
      | true =>
          refine ⟨by simp [router, hg], by simp [router, hg], ?_, by simp [hg]⟩
          intro _
          refine ⟨?_, ?_, ?_⟩ <;>
            simp [pipeline_trace, trace_from, next_node, router, hg]

/-- Witness for C4: a passing verdict skips the web-search nodes; an
absent verdict takes the fallback path. -/
theorem router_pure_branching_witness :
    pipeline_trace
      { messages := [], question := "q", reformulated_query := none
        documents := [], feedback := "", is_good := some true
        chat_history := [], summary := "" } =
      [Node.START, Node.REFORMULATE, Node.RETRIEVER, Node.AGENT, Node.JUDGE,
       Node.GENERATE_ANSWER, Node.END] ∧
    pipeline_trace
      { messages := [], question := "q", reformulated_query := none
        documents := [], feedback := "", is_good := none
        chat_history := [], summary := "" } =
      [Node.START, Node.REFORMULATE, Node.RETRIEVER, Node.AGENT, Node.JUDGE,
       Node.SEARCH_TAVILY, Node.FINAL_AGENT, Node.GENERATE_ANSWER, Node.END] :=
  ⟨((router_pure_branching _).2.2.1 rfl).1,
   (router_pure_branching _).2.2.2 rfl⟩

/-- C6: for every authenticated caller and chat id, `get`, `delete`,
`rename` and `list messages` return the identical NotFound outcome
whenever no chat with that id is owned by the caller — covering both a
nonexistent chat id and a chat owned by a different user, so a non-owner
can never distinguish the two cases. -/
theorem ownership_not_found_indistinguishable (db : DB) (uid cid : Nat)
    (hno : ∀ c ∈ db.chats, c.id = cid → c.user_id ≠ uid) :
    get_chat db uid cid = Except.error (ApiError.NotFound "Chat not found") ∧
    delete_chat db uid cid = Except.error (ApiError.NotFound "Chat not found") ∧
    (∀ new_name, update_chat_name db uid cid new_name =
        Except.error (ApiError.NotFound "Chat not found")) ∧
    (∀ loads, get_messages loads db uid cid =
        Except.error (ApiError.NotFound "Chat not found")) := by
  have hfind : find_owned_chat db cid uid = none := by
    rw [find_owned_chat, List.find?_eq_none]
    intro c hc
    simp only [Bool.and_eq_true, beq_iff_eq, not_and]
    exact fun hid => hno c hc hid
  refine ⟨?_, ?_, fun n => ?_, fun loads => ?_⟩ <;>
    simp [get_chat, delete_chat, update_chat_name, get_messages, hfind]

/-- A chat row used by several witnesses: chat 1, owned by user 1. -/
def chat1 : ChatRow :=
  { id := 1, name := some "my chat", user_id := 1
    url := "https://youtu.be/ABCDEFGHIJK", title := some "Video Title"
    author := some "Author", thumbnail_url := some "thumb"
    created_at := 0, last_session := 0 }

/-- Witness for C6: caller 2 gets the same NotFound on chat 1 (owned by
user 1) as on the absent chat 99. -/
theorem ownership_not_found_indistinguishable_witness :
    get_chat (DB.mk [chat1] []) 2 1 =
      Except.error (ApiError.NotFound "Chat not found") ∧
    delete_chat (DB.mk [chat1] []) 2 1 =
      Except.error (ApiError.NotFound "Chat not found") ∧
    update_chat_name (DB.mk [chat1] []) 2 1 "x" =
      Except.error (ApiError.NotFound "Chat not found") ∧
    get_messages (fun _ => none) (DB.mk [chat1] []) 2 1 =
      Except.error (ApiError.NotFound "Chat not found") ∧
    get_chat (DB.mk [chat1] []) 2 99 =
      Except.error (ApiError.NotFound "Chat not found") ∧
    get_chat (DB.mk [chat1] []) 2 1 = get_chat (DB.mk [chat1] []) 2 99 := by
  have h1 := ownership_not_found_indistinguishable (DB.mk [chat1] []) 2 1 (by decide)
  have h2 := ownership_not_found_indistinguishable (DB.mk [chat1] []) 2 99 (by decide)
  exact ⟨h1.1, h1.2.1, h1.2.2.1 "x", h1.2.2.2 _, h2.1, h1.1.trans h2.1.symm⟩

/-- C9: list-messages parses each stored `follow_up` into a string array,
an absent or unparsable value becoming the empty array; a parse failure
never drops a row and never fails the call — the only error the operation
can return is the ownership NotFound. -/
theorem follow_up_parse_lenient (loads : String → Option (List String)) (db : DB)
    (uid cid : Nat) :
    parse_follow_up loads none = [] ∧
    (∀ s, loads s = none → parse_follow_up loads (some s) = []) ∧
    (∀ e, get_messages loads db uid cid = Except.error e →
        e = ApiError.NotFound "Chat not found") ∧
    (∀ l, get_messages loads db uid cid = Except.ok l →
        l = (db.messages.filter (fun m => m.chat_id == cid)).map
          (fun m => { id := m.id, role := m.role, content := m.content
                      follow_up := parse_follow_up loads m.follow_up
                      created_at := m.created_at })) := by
  refine ⟨rfl, ?_, ?_, ?_⟩
  · intro s hs
    by_cases hse : s = "" <;> simp [parse_follow_up, hs, hse]
  · intro e he
    unfold get_messages at he
    cases hfind : find_owned_chat db cid uid with
    | none =>
        rw [hfind] at he
        injection he with h
        exact h.symm
    | some c => rw [hfind] at he; cases he
  · intro l hl
    unfold get_messages at hl
    cases hfind : find_owned_chat db cid uid with
    | none => rw [hfind] at hl; cases hl
    | some c =>
        rw [hfind] at hl
        injection hl with h
        exact h.symm

/-- A message row whose stored follow-up is not valid JSON. -/
def badMsg : MessageRow :=
  { id := 7, chat_id := 1, role := "ai", content := "answer text"
    follow_up := some "not json at all", created_at := 5 }

/-- Witness for C9: with a decoder that rejects the stored text, the call
still succeeds and returns the row with an empty follow-up array. -/
theorem follow_up_parse_lenient_witness :
    parse_follow_up (fun _ => none) none = [] ∧
    parse_follow_up (fun _ => none) (some "not json at all") = [] ∧
    get_messages (fun _ => none) (DB.mk [chat1] [badMsg]) 1 1 =
      Except.ok [{ id := 7, role := "ai", content := "answer text"
                   follow_up := [], created_at := 5 }] :=
  ⟨(follow_up_parse_lenient (fun _ => none) (DB.mk [chat1] [badMsg]) 1 1).1,
   (follow_up_parse_lenient (fun _ => none) (DB.mk [chat1] [badMsg]) 1 1).2.1
     "not json at all" rfl,
   rfl⟩

/-- C10: `get_chat_graph` ignores its `url` argument on a cache hit — every
call after the first, with the same chat id, returns the identical cached
compiled pipeline, still bound to the URL supplied on the first call. -/
theorem chat_graph_cache_ignores_url
    (cache : List (Nat × CompiledGraph × String)) (cid : Nat) (u1 u2 : String) :
    (∀ e, cache.find? (fun x => x.1 == cid) = some e →
        get_chat_graph cache cid u1 = (e.2.1, cache) ∧
        (get_chat_graph cache cid u1).1 = (get_chat_graph cache cid u2).1) ∧
    (cache.find? (fun x => x.1 == cid) = none →
        (get_chat_graph cache cid u1).1.bound_url = u1 ∧
        get_chat_graph ((get_chat_graph cache cid u1).2) cid u2 =
          ((get_chat_graph cache cid u1).1, (get_chat_graph cache cid u1).2)) := by
  constructor
  · intro e he
    constructor <;> simp [get_chat_graph, he]
  · intro hnone
    have h1 : get_chat_graph cache cid u1 =
        ({ bound_url := u1 }, cache ++ [(cid, { bound_url := u1 }, u1)]) := by
      simp [get_chat_graph, hnone]
    have h2 : (cache ++ [(cid, ({ bound_url := u1 } : CompiledGraph), u1)]).find?
        (fun x => x.1 == cid) = some (cid, { bound_url := u1 }, u1) := by
      rw [List.find?_append, hnone]
      simp
    rw [h1]
    exact ⟨rfl, by simp [get_chat_graph, h2]⟩

/-- Witness for C10: after a first call binding chat 5 to URL "A", a call
with URL "B" returns the same instance, still bound to "A". -/
theorem chat_graph_cache_ignores_url_witness :
    (get_chat_graph [] 5 "A").1.bound_url = "A" ∧
    get_chat_graph ((get_chat_graph [] 5 "A").2) 5 "B" =
      ((get_chat_graph [] 5 "A").1, (get_chat_graph [] 5 "A").2) :=
  (chat_graph_cache_ignores_url [] 5 "A" "B").2 rfl

/-- Discriminator for error-type server-sent events. -/
def is_error_event : SSE → Bool
  | SSE.error _ => true
  | _ => false

/-- Node updates never yield an error event; errors come only from the
exception handler. -/
theorem sse_of_node_not_error (n : NodeEvent) (s : SSE)
    (h : sse_of_node n = some s) : is_error_event s = false := by
  cases n with
  | REFORMULATE => injection h with h; subst h; rfl
  | RETRIEVER => injection h with h; subst h; rfl
  | AGENT => injection h with h; subst h; rfl
  | JUDGE g => injection h with h; subst h; rfl
  | SEARCH_TAVILY => injection h with h; subst h; rfl
  | FINAL_AGENT => injection h with h; subst h; rfl
  | GENERATE_ANSWER p =>
      cases p with
      | none => cases h
      | some q => injection h with h; subst h; rfl

/-- C5: for one streaming call, the user message is persisted before the
pipeline is invoked and survives every outcome; an exception during the
run yields exactly one error event carrying its description, with no AI
message written and `last_session` untouched; the AI message and the
`last_session` bump happen only when the run completes with a final
result payload. -/
theorem stream_turn_persistence (dumps : List String → String) (db : DB)
    (cid : Nat) (q : String) (run : List NodeEvent × Option String)
    (mid1 mid2 t : Nat) :
    (MessageRow.mk mid1 cid "user" q none t) ∈
      (event_generator dumps db cid q run mid1 mid2 t).1.messages ∧
    (∀ e, run.2 = some e →
      (event_generator dumps db cid q run mid1 mid2 t).1 =
        DB.mk db.chats (db.messages ++ [MessageRow.mk mid1 cid "user" q none t]) ∧
      (event_generator dumps db cid q run mid1 mid2 t).2 =
        run.1.filterMap sse_of_node ++ [SSE.error e] ∧
      ((event_generator dumps db cid q run mid1 mid2 t).2.filter is_error_event) =
        [SSE.error e]) ∧
    (run.2 = none → final_payload run.1 = none →
      (event_generator dumps db cid q run mid1 mid2 t).1 =
        DB.mk db.chats (db.messages ++ [MessageRow.mk mid1 cid "user" q none t])) ∧
    (∀ p, run.2 = none → final_payload run.1 = some p →
      (event_generator dumps db cid q run mid1 mid2 t).1.messages =
        db.messages ++ [MessageRow.mk mid1 cid "user" q none t,
          MessageRow.mk mid2 cid "ai" p.answer (some (dumps p.follow_up)) t] ∧
      (event_generator dumps db cid q run mid1 mid2 t).1.chats =
        db.chats.map (fun c => if c.id = cid then { c with last_session := t } else c)) := by
  have hclean : (run.1.filterMap sse_of_node).filter is_error_event = [] := by
    rw [List.filter_eq_nil_iff]
    intro a ha
    obtain ⟨n, _, hsome⟩ := List.mem_filterMap.mp ha
    simp [sse_of_node_not_error n a hsome]
  refine ⟨?_, ?_, ?_, ?_⟩
  · unfold event_generator
    cases hr : run.2 with
    | some e => simp
    | none =>
        cases hfp : final_payload run.1 with
        | none => simp
        | some p => simp
  · intro e he
    unfold event_generator
    rw [he]
    refine ⟨rfl, rfl, ?_⟩
    rw [List.filter_append, hclean]
    rfl
  · intro hr hfp
    unfold event_generator
    rw [hr, hfp]
  · intro p hr hfp
    unfold event_generator
    rw [hr, hfp]
    exact ⟨by simp, rfl⟩

/-- Witness for C5: a run that fails right after the retriever status
leaves the user message stored, emits one error event, and changes
nothing else; a completed run persists the AI turn. -/
theorem stream_turn_persistence_witness :
    (event_generator (fun _ => "[]") (DB.mk [chat1] []) 1 "why?"
        ([NodeEvent.REFORMULATE, NodeEvent.RETRIEVER], some "boom") 8 9 42).1 =
      DB.mk [chat1] [MessageRow.mk 8 1 "user" "why?" none 42] ∧
    (event_generator (fun _ => "[]") (DB.mk [chat1] []) 1 "why?"
        ([NodeEvent.REFORMULATE, NodeEvent.RETRIEVER], some "boom") 8 9 42).2.filter
        is_error_event = [SSE.error "boom"] ∧
    (event_generator (fun _ => "[]") (DB.mk [chat1] []) 1 "why?"
        ([NodeEvent.GENERATE_ANSWER (some (Payload.mk "T" "why?" "A" ["f1"]))], none)
        8 9 42).1.messages =
      [MessageRow.mk 8 1 "user" "why?" none 42,
       MessageRow.mk 9 1 "ai" "A" (some "[]") 42] := by
  have h1 := stream_turn_persistence (fun _ => "[]") (DB.mk [chat1] []) 1 "why?"
    ([NodeEvent.REFORMULATE, NodeEvent.RETRIEVER], some "boom") 8 9 42
  have h2 := stream_turn_persistence (fun _ => "[]") (DB.mk [chat1] []) 1 "why?"
    ([NodeEvent.GENERATE_ANSWER (some (Payload.mk "T" "why?" "A" ["f1"]))], none) 8 9 42
  refine ⟨(h1.2.1 "boom" rfl).1, (h1.2.1 "boom" rfl).2.2, ?_⟩
  have := (h2.2.2.2 (Payload.mk "T" "why?" "A" ["f1"]) rfl rfl).1
  simpa using this

/-! ### Video-id extraction lemmas for C7 -/

/-- What a successful 11-character capture tells us. -/
theorem take_id_sound (cs out : List Char) (h : take_id cs = some out) :
    out.length = 11 ∧ out.all is_vid_char = true ∧ ∃ rest, cs = out ++ rest := by
  simp only [take_id] at h
  split at h
  case isTrue hcond =>
    injection h with h
    subst h
    exact ⟨hcond.1, hcond.2, cs.drop 11, (List.take_append_drop 11 cs).symm⟩
  case isFalse => cases h

/-- A match at a position captures 11 id-class characters immediately
following `v=` or `/` there. -/
theorem match_at_sound (cs out : List Char) (h : match_at cs = some out) :
    out.length = 11 ∧ out.all is_vid_char = true ∧
    ((∃ rest, cs = 'v' :: '=' :: (out ++ rest)) ∨
     (∃ rest, cs = '/' :: (out ++ rest))) := by
  cases cs with
  | nil => cases h
  | cons c rest =>
      simp only [match_at] at h
      by_cases hv : c = 'v'
      · rw [if_pos hv] at h
        cases rest with
        | nil => cases h
        | cons d rest2 =>
            simp only [match_v_eq] at h
            by_cases hd : d = '='
            · rw [if_pos hd] at h
              obtain ⟨h1, h2, rest3, h3⟩ := take_id_sound rest2 out h
              exact ⟨h1, h2, Or.inl ⟨rest3, by rw [hv, hd, h3]⟩⟩
            · rw [if_neg hd] at h; cases h
      · rw [if_neg hv] at h
        by_cases hs : c = '/'
        · rw [if_pos hs] at h
          obtain ⟨h1, h2, rest3, h3⟩ := take_id_sound rest out h
          exact ⟨h1, h2, Or.inr ⟨rest3, by rw [hs, h3]⟩⟩
        · rw [if_neg hs] at h; cases h

/-- Unfolding lemma for the position scan. -/
theorem scan_video_id_cons (c : Char) (rest : List Char) :
    scan_video_id (c :: rest) =
      match match_at (c :: rest) with
      | some v => some v
      | none => scan_video_id rest := rfl

/-- The scan fails exactly when no position of the text matches. -/
theorem scan_video_id_eq_none_iff (cs : List Char) :
    scan_video_id cs = none ↔ ∀ i, match_at (cs.drop i) = none := by
  induction cs with
  | nil =>
      simp only [scan_video_id, List.drop_nil, true_iff]
      intro i
      rfl
  | cons c rest ih =>
      rw [scan_video_id_cons]
      cases hma : match_at (c :: rest) with
      | some v =>
          simp only [reduceCtorEq, false_iff, not_forall]
          exact ⟨0, by simpa using hma ▸ (by simp)⟩
      | none =>
          constructor
          · intro h i
            cases i with
            | zero => simpa using hma
            | succ j => rw [List.drop_succ_cons]; exact ih.mp h j
          · intro h
            exact ih.mpr (fun j => by simpa using h (j + 1))

/-- A successful scan is the leftmost match: it matches at some position
before which no position matches. -/
theorem scan_video_id_sound (cs out : List Char)
    (h : scan_video_id cs = some out) :
    ∃ i, match_at (cs.drop i) = some out ∧
      ∀ j, j < i → match_at (cs.drop j) = none := by
  induction cs with
  | nil => cases h
  | cons c rest ih =>
      rw [scan_video_id_cons] at h
      cases hma : match_at (c :: rest) with
      | some v =>
          rw [hma] at h
          injection h with h
          subst h
          exact ⟨0, hma, fun j hj => absurd hj (Nat.not_lt_zero j)⟩
      | none =>
          rw [hma] at h
          obtain ⟨i, h1, h2⟩ := ih h
          refine ⟨i + 1, by simpa using h1, fun j hj => ?_⟩
          cases j with
          | zero => simpa using hma
          | succ j' => rw [List.drop_succ_cons]; exact h2 j' (Nat.lt_of_succ_lt_succ hj)

/-- C7: video-id extraction returns the first 11-character run drawn from
`[0-9A-Za-z_-]` that immediately follows `v=` or `/`; each of the watch,
youtu.be, embed and shorts URL shapes yields exactly `ABCDEFGHIJK`; and a
URL with no such segment yields no id, so chat creation rejects it with a
400 "Invalid YouTube URL". -/
theorem video_id_extraction (url : String) :
    get_video_id "https://www.youtube.com/watch?v=ABCDEFGHIJK" = some "ABCDEFGHIJK" ∧
    get_video_id "https://youtu.be/ABCDEFGHIJK" = some "ABCDEFGHIJK" ∧
    get_video_id "https://www.youtube.com/embed/ABCDEFGHIJK" = some "ABCDEFGHIJK" ∧
    get_video_id "https://www.youtube.com/shorts/ABCDEFGHIJK" = some "ABCDEFGHIJK" ∧
    (get_video_id url = none ↔ ∀ i, match_at (url.data.drop i) = none) ∧
    (∀ v, get_video_id url = some v →
      v.data.length = 11 ∧ v.data.all is_vid_char = true ∧
      (∃ i, match_at (url.data.drop i) = some v.data ∧
        ((∃ rest, url.data.drop i = 'v' :: '=' :: (v.data ++ rest)) ∨
         (∃ rest, url.data.drop i = '/' :: (v.data ++ rest))) ∧
        ∀ j, j < i → match_at (url.data.drop j) = none)) ∧
    (∀ (ytdlp piped : String → Option VideoMeta)
        (cache : List (String × VideoMeta)) (db : DB) (uid : Nat)
        (name : Option String) (nid t : Nat),
      get_video_id url = none →
      cache.find? (fun p => p.1 == url) = none →
      create_chat ytdlp piped cache db uid url name nid t =
        Except.error (ApiError.BadRequest "Invalid YouTube URL")) := by
  refine ⟨by decide, by decide, by decide, by decide, ?_, ?_, ?_⟩
  · unfold get_video_id
    rw [Option.map_eq_none']
    exact scan_video_id_eq_none_iff url.data
  · intro v hv
    unfold get_video_id at hv
    rw [Option.map_eq_some'] at hv
    obtain ⟨cs, hcs, hmk⟩ := hv
    have hdata : v.data = cs := by rw [← hmk]
    obtain ⟨i, h1, h2⟩ := scan_video_id_sound url.data cs hcs
    obtain ⟨hlen, hall, hshape⟩ := match_at_sound (url.data.drop i) cs h1
    rw [hdata]
    exact ⟨hlen, hall, i, h1, hshape, h2⟩
  · intro ytdlp piped cache db uid name nid t hnone hcache
    have hval : is_valid_youtube_url ytdlp piped cache url = (false, cache) := by
      unfold is_valid_youtube_url
      rw [hcache, hnone]
      simp
    unfold create_chat
    rw [hval]
    simp

/-- Witness for C7: a URL with no id-shaped segment is rejected at chat
creation with the 400 error. -/
theorem video_id_extraction_witness :
    get_video_id "https://example.com" = none ∧
    create_chat (fun _ => none) (fun _ => none) [] (DB.mk [] []) 1
      "https://example.com" none 1 0 =
      Except.error (ApiError.BadRequest "Invalid YouTube URL") :=
  ⟨by decide,
   (video_id_extraction "https://example.com").2.2.2.2.2.2
     (fun _ => none) (fun _ => none) [] (DB.mk [] []) 1 none 1 0
     (by decide) rfl⟩

end TubeChat
